import Mathlib

/-
Verification development for `src/evaluation/prediction_loader.py`
(class `PredictionLoader`).

The loader reads a CSV file of per-video model predictions, resolves
category columns despite casing drift, extracts a canonical video
identifier, converts free-text labels to numeric codes, and aggregates
one `PredictionResult` per surviving data row into a `PredictionSet`.

Modelling conventions:
- A CSV row (Python `dict[str, str]`, as produced by `csv.DictReader`)
  is a `Row`: an association list from column name to an optional cell
  value.  A `none` cell models `restval=None` that `csv.DictReader`
  inserts when a data line is shorter than the header.
- Python exceptions raised while parsing a row are modelled with
  `Except String`; the message is what the loader's `f"Row {n}: {e}"`
  wrapper interpolates.
- The logging side effects relevant to the specification are modelled
  as explicit outputs: the dedup set `self._logged_unexpected_values`
  of `(category, raw value)` pairs is threaded through the row parser,
  and each emitted warning/diagnostic is collected into a log record.
- External collaborators that are not under `src/` (`normalize_video_id`,
  `GroundTruthLoader._convert_value`, `ANNOTATION_CATEGORIES`, the
  result dataclasses) are parameters of the model or are modelled from
  the spec, as marked on each definition.
-/

/-- Insert `(k, v)` into an association list with Python `dict` update
semantics: if the key is present its value is replaced in place,
otherwise the pair is appended at the end. -/
def insertAssoc {β : Type} : List (String × β) → String → β → List (String × β)
  | [], k, v => [(k, v)]
  | (k', v') :: rest, k, v =>
    if k' == k then (k', v) :: rest else (k', v') :: insertAssoc rest k v

/-- A CSV data row as produced by `csv.DictReader`: column name to cell.
A `none` cell is Python `None` (the `restval` filled in for a short row). -/
abbrev Row : Type := List (String × Option String)

/-- Look a key up in a row: `some cell` iff the key is present
(Python `k in row`, `row[k]`). -/
def rowFind? (row : Row) (k : String) : Option (Option String) :=
  (List.find? (fun p => p.1 == k) row).map Prod.snd

/-- Python `k in row`. -/
def rowHas (row : Row) (k : String) : Bool :=
  (rowFind? row k).isSome

/-- Python `row.get(k, d)`: the default is used only when the key is
absent; a key present with value `None` yields `None`. -/
def dictGet (row : Row) (k : String) (d : Option String) : Option String :=
  match rowFind? row k with
  | some v => v
  | none => d

/-- Build the row dictionary `csv.DictReader` yields for one data line:
`dict(zip(fieldnames, cells))`, then every fieldname beyond the line's
length is set to `restval = None`.  (Extra cells beyond the header would
be collected under the non-string `None` key, which no string lookup in
the loader can reach, so they are dropped here.) -/
def mkRow (header : List String) (cells : List String) : Row :=
  let pairs : List (String × Option String) :=
    header.zip (cells.map some) ++ (header.drop cells.length).map (fun h => (h, none))
  pairs.foldl (fun r p => insertAssoc r p.1 p.2) []

/-- Python `s.lower()` (restricted to the ASCII letters the loader's
category names and labels use), defined by structural recursion over
the character list so that the kernel can evaluate it. -/
def strLower (s : String) : String :=
  ⟨s.data.map Char.toLower⟩

/-- Python `s.strip()` with no argument: remove leading and trailing
whitespace (restricted to the ASCII whitespace of `Char.isWhitespace`). -/
def pyStripStr (s : String) : String :=
  ⟨((s.data.dropWhile Char.isWhitespace).reverse.dropWhile Char.isWhitespace).reverse⟩

/-- Python `s[n:]` for a nonnegative `n`. -/
def strDrop (s : String) (n : Nat) : String :=
  ⟨s.data.drop n⟩

/-- Python `s[:-n]` for a positive `n` no larger than the length
(and, like Python, the empty string when `n` exceeds the length). -/
def strDropRight (s : String) (n : Nat) : String :=
  ⟨s.data.take (s.data.length - n)⟩

/-- Python `s.startswith(p)`. -/
def strStarts (s p : String) : Bool :=
  p.data.isPrefixOf s.data

/-- Python `s.endswith(p)`. -/
def strEnds (s p : String) : Bool :=
  p.data.isSuffixOf s.data

/-- Python `s.strip()` on an optional cell: stripping `None` raises
`AttributeError`. -/
def pyStrip (c : Option String) : Except String String :=
  match c with
  | some s => .ok (pyStripStr s)
  | none => .error "AttributeError: 'NoneType' object has no attribute 'strip'"

/-- Passing a cell to the external video-id resolver requires a string;
a `None` cell violates the resolver's contract (`function(raw string)`,
spec section 6) and is modelled as a raised error. -/
def requireStr (c : Option String) : Except String String :=
  match c with
  | some s => .ok s
  | none => .error "TypeError: expected str, got NoneType"

/-- `PredictionLoader.COLUMN_MAPPING`: the static table from TikTok CSV
column names to standard category names, in source order.  Note the
lowercase 'd' in the `Power_dominance` key, as in the source. -/
def COLUMN_MAPPING : List (String × String) :=
  [("1_Value1_Self_Direction_Thought_values", "Self_Direction_Thought"),
   ("1_Value1_Self_Direction_Action_values", "Self_Direction_Action"),
   ("1_Value1_Stimulation_values", "Stimulation"),
   ("1_Value1_Hedonism_values", "Hedonism"),
   ("1_Value1_Achievement_values", "Achievement"),
   ("1_Value1_Power_Resources_values", "Power_Resources"),
   ("1_Value1_Power_dominance_values", "Power_Dominance"),
   ("1_Value1_Face_values", "Face"),
   ("1_Value1_Security_Personal_values", "Security_Personal"),
   ("1_Value1_Security_Social_values", "Security_Social"),
   ("1_Value1_Conformity_Rules_values", "Conformity_Rules"),
   ("1_Value1_Conformity_Interpersonal_values", "Conformity_Interpersonal"),
   ("1_Value1_Tradition_values", "Tradition"),
   ("1_Value1_Humility_values", "Humility"),
   ("1_Value1_Benevolence_Dependability_values", "Benevolence_Dependability"),
   ("1_Value1_Benevolence_Care_values", "Benevolence_Care"),
   ("1_Value1_Universalism_Concern_values", "Universalism_Concern"),
   ("1_Value1_Universalism_Nature_values", "Universalism_Nature"),
   ("1_Value1_Universalism_Tolerance_values", "Universalism_Tolerance")]

/-- Modelled from the spec: the Canonical Category List
(`ANNOTATION_CATEGORIES`, imported from `evaluation.ground_truth_loader`,
which is not under `src/`).  Per spec sections 3 and 6 it is the fixed,
externally defined taxonomy; its names agree with the targets of the
source's `COLUMN_MAPPING`, in the same order. -/
def ANNOTATION_CATEGORIES : List String :=
  ["Self_Direction_Thought", "Self_Direction_Action", "Stimulation",
   "Hedonism", "Achievement", "Power_Resources", "Power_Dominance",
   "Face", "Security_Personal", "Security_Social", "Conformity_Rules",
   "Conformity_Interpersonal", "Tradition", "Humility",
   "Benevolence_Dependability", "Benevolence_Care",
   "Universalism_Concern", "Universalism_Nature",
   "Universalism_Tolerance"]

/-- Modelled from the spec: the Value Normalizer
(`GroundTruthLoader._convert_value`, not under `src/`).  Per spec
section 6 it maps a text label to one of four numeric codes or signals
"unrecognized" (`none`), recognizing at least the literal tokens
(case-insensitive) absent/conflict/present/dominant, the literal
numerics -1/0/1/2, and the empty string; per sections 4.2 and 7 empty
text maps to code 0. -/
def gt_convert_value (s : String) : Option Int :=
  let t := strLower s
  if t = "" then some 0
  else if t = "absent" then some 0
  else if t = "conflict" then some (-1)
  else if t = "present" then some 1
  else if t = "dominant" then some 2
  else if t = "-1" then some (-1)
  else if t = "0" then some 0
  else if t = "1" then some 1
  else if t = "2" then some 2
  else none

/-- `PredictionLoader._extract_video_id` (the loader passes the raw
`filename` cell through `normalize_video_id` and falls back to the raw
value when the resolver returns an empty string:
`return normalize_video_id(filename) or filename`).  The external
resolver `normalize_video_id` is the parameter `nvid`. -/
def extract_video_id (nvid : String → String) (filename : String) : String :=
  let n := nvid filename
  if n = "" then filename else n

/-- The identifier-extraction prefix of `PredictionLoader._parse_row`
(source lines 173-184): try `filename`, then `1_Link1`, then `video_id`,
in that order; `.ok none` means no recognized identifier field exists. -/
def extractVideoId (nvid : String → String) (row : Row) : Except String (Option String) :=
  match rowFind? row "filename" with
  | some c => (requireStr c).map (fun s => some (extract_video_id nvid s))
  | none =>
    match rowFind? row "1_Link1" with
    | some c => (requireStr c).map (fun s => some (nvid s))
    | none =>
      match rowFind? row "video_id" with
      | some c => (pyStrip c).map some
      | none => .ok none

/-- The per-category reverse lookup in `_parse_row`: the first key of
`COLUMN_MAPPING` whose target equals the category. -/
def csvColFor (category : String) : Option String :=
  (List.find? (fun p => p.2 == category) COLUMN_MAPPING).map Prod.fst

/-- The case-insensitive fallback in `_parse_row` (source lines
201-206): look the lowercased category up in the per-file column
mapping and strip the value of the actual column; when the category is
not in the mapping `value_str` keeps its (empty) value. -/
def ciFallback (cm : List (String × String)) (row : Row) (category : String) :
    Except String String :=
  match (List.find? (fun p => p.1 == strLower category) cm).map Prod.snd with
  | some actual => pyStrip (dictGet row actual (some ""))
  | none => .ok ""

/-- The per-category value lookup of `_parse_row` (source lines
189-215): in the value-columns layout, try the exact `COLUMN_MAPPING`
column, then (when the stripped value is empty and the exact column is
not a key of the row) the case-insensitive fallback; in the standard
layout, the category name is the column.  (`csvColFor` never returns
`none` for a canonical category; in that dead branch `value_str` is
`''` and `None not in row`, so Python would run the fallback.) -/
def getValueStr (has_value_columns : Bool) (cm : List (String × String))
    (row : Row) (category : String) : Except String String :=
  if has_value_columns then
    match csvColFor category with
    | none => ciFallback cm row category
    | some cc =>
      match pyStrip (dictGet row cc (some "")) with
      | .error e => .error e
      | .ok vs =>
        if vs = "" ∧ ¬ rowHas row cc then ciFallback cm row category
        else .ok vs
  else
    pyStrip (dictGet row category (some ""))

/-- One unexpected-value warning event emitted by
`PredictionLoader._convert_value` (source lines 258-267). -/
structure ValueWarning where
  category : String
  value : String
  row_num : Nat
deriving DecidableEq, Repr

/-- The exact text the source logs for an unexpected value. -/
def ValueWarning.message (w : ValueWarning) : String :=
  "Unexpected value '" ++ w.value ++ "' for category '" ++ w.category ++
    "' in row " ++ toString w.row_num ++
    ". Expected: '', 'absent', 'conflict', 'present', 'dominant', or numeric -1, 0, 1, 2"

/-- `PredictionLoader._convert_value` (source lines 238-270).  `gtc` is
the injected `GroundTruthLoader._convert_value`; `logged` is the dedup
set `self._logged_unexpected_values`.  Returns the numeric value, the
updated dedup set, and the warnings emitted (at most one). -/
def convert_value (gtc : String → Option Int) (logged : List (String × String))
    (value_str : Option String) (category : String) (row_num : Nat) :
    Int × List (String × String) × List ValueWarning :=
  match value_str with
  | none => (0, logged, [])
  | some v =>
    match gtc v with
    | some n => (n, logged, [])
    | none =>
      if v = "" then (0, logged, [])
      else if (category, v) ∈ logged then (0, logged, [])
      else (0, (category, v) :: logged, [⟨category, v, row_num⟩])

/-- Modelled from the spec: the `PredictionResult` dataclass
(`evaluation.models`, not under `src/`), per spec section 3: video
identifier, a predictions mapping (kept as an association list in
insertion order), a success flag, an optional error message, and a
defaulted inference time (always the constant `0.0` here, modelled as
the integer 0). -/
structure PredictionResult where
  video_id : String
  predictions : List (String × Int)
  success : Bool
  error_message : Option String
  inference_time : Int
deriving DecidableEq, Repr

/-- The per-category extraction loop of `_parse_row` (source lines
186-215), over a list of categories: for each category, look the raw
value up, strip it, convert it, and record `(category, value)`.  An
exception aborts the loop but keeps the dedup-set updates and warnings
already produced (in the source the dedup set is instance state and the
warnings were already logged). -/
def extractAnnots (gtc : String → Option Int) (has_value_columns : Bool)
    (cm : List (String × String)) (row : Row) (row_num : Nat)
    (logged : List (String × String)) :
    List String → List (String × String) × List ValueWarning × Except String (List (String × Int))
  | [] => (logged, [], .ok [])
  | c :: cats =>
    match getValueStr has_value_columns cm row c with
    | .error e => (logged, [], .error e)
    | .ok vs =>
      let r1 := convert_value gtc logged (some vs) c row_num
      let rest := extractAnnots gtc has_value_columns cm row row_num r1.2.1 cats
      (rest.1, r1.2.2 ++ rest.2.1, (rest.2.2).map (fun l => (c, r1.1) :: l))

/-- Everything one `_parse_row` call produces: the updated dedup set,
the warnings logged during the call, and either a raised exception, a
skip (`.ok none`), or a record (`.ok (some r)`). -/
structure RowOutcome where
  logged : List (String × String)
  warnings : List ValueWarning
  result : Except String (Option PredictionResult)

/-- `PredictionLoader._parse_row` (source lines 152-223).  The
`is_tiktok_format` flag is a parameter of the source function that its
body never reads. -/
def parse_row (nvid : String → String) (gtc : String → Option Int)
    (logged : List (String × String)) (row : Row)
    (is_tiktok_format has_value_columns : Bool)
    (cm : List (String × String)) (row_num : Nat) : RowOutcome :=
  match extractVideoId nvid row with
  | .error e => ⟨logged, [], .error e⟩
  | .ok none => ⟨logged, [], .ok none⟩
  | .ok (some vid) =>
    if vid = "" then ⟨logged, [], .ok none⟩
    else
      let a := extractAnnots gtc has_value_columns cm row row_num logged ANNOTATION_CATEGORIES
      match a.2.2 with
      | .error e => ⟨a.1, a.2.1, .error e⟩
      | .ok annots => ⟨a.1, a.2.1, .ok (some ⟨vid, annots, true, none, 0⟩)⟩

/-- Modelled from the spec: the `PredictionSet` aggregate
(`evaluation.models`, not under `src/`), per spec section 3: source
label, ordered records, total/success/failure counters, and the list of
failed identifiers. -/
structure PredictionSet where
  model_name : String
  predictions : List PredictionResult
  total_count : Nat
  success_count : Nat
  failure_count : Nat
  failed_video_ids : List String
deriving DecidableEq, Repr

/-- The accumulated outcome of the row loop of `load` (source lines
93-99): the records in file order, all collected `"Row N: ..."`
diagnostics in file order, the final dedup set, and all value warnings
in emission order. -/
structure RowsOutcome where
  preds : List PredictionResult
  errs : List String
  logged : List (String × String)
  warnings : List ValueWarning
deriving Repr

/-- The row loop of `load` (source lines 93-99): iterate the data rows
with row numbers starting at 2, parse each, collect records, turn each
raised exception into a `"Row N: message"` diagnostic, and continue. -/
def loadRows (nvid : String → String) (gtc : String → Option Int)
    (is_tiktok_format has_value_columns : Bool) (cm : List (String × String)) :
    List Row → Nat → List (String × String) → RowsOutcome
  | [], _, logged => ⟨[], [], logged, []⟩
  | r :: rest, n, logged =>
    let o := parse_row nvid gtc logged r is_tiktok_format has_value_columns cm n
    let k := loadRows nvid gtc is_tiktok_format has_value_columns cm rest (n + 1) o.logged
    match o.result with
    | .error e => ⟨k.preds, ("Row " ++ toString n ++ ": " ++ e) :: k.errs, k.logged, o.warnings ++ k.warnings⟩
    | .ok none => ⟨k.preds, k.errs, k.logged, o.warnings ++ k.warnings⟩
    | .ok (some p) => ⟨p :: k.preds, k.errs, k.logged, o.warnings ++ k.warnings⟩

/-- The source text of a column-case-mismatch warning
(`_build_column_mapping`, source lines 143-146). -/
def mismatchMsg (category expected actual : String) : String :=
  "Column case mismatch for '" ++ category ++ "': expected '" ++ expected ++
    "', found '" ++ actual ++ "'"

/-- The source text of a no-column warning (`_build_column_mapping`,
source line 148). -/
def noColumnMsg (category : String) : String :=
  "No column found for category '" ++ category ++ "'"

/-- The expected exact TikTok column name for a category. -/
def expectedCol (category : String) : String :=
  "1_Value1_" ++ category ++ "_values"

/-- `PredictionLoader._build_column_mapping` (source lines 117-150):
register every header of the form `1_Value1_<Category>_values` under
the lowercased category token (Python `col[9:-7].lower()`), then, for
each canonical category whose exact expected header is absent, warn
about a case mismatch (when a case-insensitive match exists) or a
missing column.  Returns the mapping and the warnings in loop order. -/
def build_column_mapping (columns : List String) :
    List (String × String) × List String :=
  let cm := columns.foldl
    (fun m col =>
      if strStarts col "1_Value1_" && strEnds col "_values" then
        insertAssoc m (strLower (strDropRight (strDrop col 9) 7)) col
      else m) []
  let ws := ANNOTATION_CATEGORIES.filterMap
    (fun category =>
      if expectedCol category ∈ columns then none
      else
        match (List.find? (fun p => p.1 == strLower category) cm).map Prod.snd with
        | some actual => some (mismatchMsg category (expectedCol category) actual)
        | none => some (noColumnMsg category))
  (cm, ws)

/-- A parsed CSV file: the header row (`reader.fieldnames or []`) and
the data lines, each a list of string cells. -/
structure CsvFile where
  header : List String
  rows : List (List String)

/-- The format detection of `load` (source line 84):
`any(col in columns for col in ['filename', '1_Link1'])`. -/
def detect_tiktok (columns : List String) : Bool :=
  columns.contains "filename" || columns.contains "1_Link1"

/-- The format detection of `load` (source line 85):
`any('_values' in col for col in columns)` (substring containment). -/
def has_value_cols (columns : List String) : Bool :=
  columns.any (fun c => decide ("_values".data <:+: c.data))

/-- The source text of the detected-format info log (source line 87). -/
def formatInfoMsg (is_tiktok has_value : Bool) : String :=
  "Detected format: TikTok=" ++ (if is_tiktok then "True" else "False") ++
    ", ValueColumns=" ++ (if has_value then "True" else "False")

/-- The logging output of one `load` call, separated by channel. -/
structure LoadLog where
  infoLogs : List String
  columnWarnings : List String
  valueWarnings : List ValueWarning
  parseErrors : List String
  surfacedParseErrors : List String
  parseErrorCountMsg : Option String
deriving Repr

/-- The body of `load` after the file has been opened (source lines
79-115), with the detected `is_tiktok_format` flag as an explicit
parameter: detect the layout, build the column mapping, run the row
loop, surface at most the first 5 collected diagnostics (source lines
101-104), and assemble the `PredictionSet` (source lines 108-115). -/
def loadFromFileFlag (nvid : String → String) (gtc : String → Option Int)
    (model_name : String) (file : CsvFile) (is_tiktok_format : Bool) :
    PredictionSet × LoadLog :=
  let columns := file.header
  let hv := has_value_cols columns
  let bm := build_column_mapping columns
  let o := loadRows nvid gtc is_tiktok_format hv bm.1 (file.rows.map (mkRow columns)) 2 []
  (⟨model_name, o.preds, o.preds.length, o.preds.length, 0, []⟩,
   ⟨[formatInfoMsg is_tiktok_format hv,
     "Built column mapping for " ++ toString bm.1.length ++ " categories"],
    bm.2, o.warnings, o.errs, o.errs.take 5,
    if o.errs.isEmpty then none else some ("Parse errors: " ++ toString o.errs.length)⟩)

/-- The body of `load` after the file has been opened, with the flag
computed from the header as in source line 84. -/
def loadFromFile (nvid : String → String) (gtc : String → Option Int)
    (model_name : String) (file : CsvFile) : PredictionSet × LoadLog :=
  loadFromFileFlag nvid gtc model_name file (detect_tiktok file.header)

/-- `PredictionLoader.load` (source lines 58-115).  The filesystem is
the map `fs` from path to parsed file content; a missing path raises
`FileNotFoundError` with the source's message (source lines 71-73). -/
def load (nvid : String → String) (gtc : String → Option Int)
    (fs : String → Option CsvFile) (model_name csv_path : String) :
    Except String (PredictionSet × LoadLog) :=
  match fs csv_path with
  | none => .error ("Predictions file not found: " ++ csv_path)
  | some file => .ok (loadFromFile nvid gtc model_name file)

/-- Modelled from the spec: a stand-in for the external Video ID
Resolver (`normalize_video_id`, declared out of scope by spec section
1).  Every theorem below quantifies over the resolver; this instance
only serves to evaluate concrete witness inputs, none of which exercise
the resolver's normalization. -/
def idResolver : String → String := fun s => s

/-- The `(category, raw value)` dedup key of a warning, as used for
`self._logged_unexpected_values`. -/
def wpair (w : ValueWarning) : String × String :=
  (w.category, w.value)

/-- The dedup-set bookkeeping a computation step performs: starting from
dedup set `lg0` it emitted warnings with keys `ws` (in order), ending in
dedup set `lg1`; the keys are pairwise distinct and were not yet logged. -/
def WChain (lg0 lg1 : List (String × String)) (ws : List (String × String)) : Prop :=
  lg1 = ws.reverse ++ lg0 ∧ ws.Nodup ∧ ∀ p ∈ ws, p ∉ lg0

/-- Two rows agree up to whitespace-stripping of their cells: the same
keys are present, `None` cells coincide, and string cells strip to the
same text. -/
def trimEquiv (r1 r2 : Row) : Prop :=
  ∀ k, (rowFind? r1 k).map (Option.map pyStripStr) =
    (rowFind? r2 k).map (Option.map pyStripStr)

/-- Every cell of the row is a string (the data line was at least as
long as the header). -/
def rowWellFormed (row : Row) : Prop :=
  ∀ p ∈ row, (Prod.snd p).isSome = true

/-- The claim-level notion of a category having a resolvable column for
a row: in the value-columns layout, the static `COLUMN_MAPPING` column
or a case-insensitive match in the per-file mapping; in the standard
layout, the category name itself as a column of the row. -/
def resolvableColumn (has_value_columns : Bool) (cm : List (String × String))
    (row : Row) (category : String) : Prop :=
  if has_value_columns then
    (csvColFor category).isSome = true ∨
      (List.find? (fun p => p.1 == strLower category) cm).isSome = true
  else rowHas row category = true

/-- A concrete standard-layout file: the spec's section 8 end-to-end
scenario. -/
def fileStd : CsvFile :=
  ⟨["video_id", "Hedonism", "Face"],
   [["v1", "present", ""], ["v2", "", "dominant"], ["v3", "bogus", "conflict"]]⟩

/-- A concrete standard-layout file whose second data line is shorter
than the header, so its `Hedonism` cell is `None` and parsing the row
raises. -/
def fileShortRow : CsvFile :=
  ⟨["video_id", "Hedonism"],
   [["v1", "present"], ["bad"], ["v3", "absent"]]⟩

/-- A concrete one-file filesystem for witnesses. -/
def fsStd : String → Option CsvFile :=
  fun p => if p = "preds.csv" then some fileStd else none

/-- A concrete one-file filesystem whose file contains a failing row. -/
def fsShort : String → Option CsvFile :=
  fun p => if p = "short.csv" then some fileShortRow else none

/-- A concrete file in which the same unrecognized value appears for the
same category in two different rows. -/
def fileDup : CsvFile :=
  ⟨["video_id", "Hedonism"],
   [["u1", "maybe"], ["u2", "maybe"]]⟩

/-- A concrete well-formed row of the short-row file's layout. -/
def rowGood1 : Row := mkRow ["video_id", "Hedonism"] ["v1", "present"]

/-- A concrete short row of the same layout: its `Hedonism` cell is
`None`, so parsing it raises. -/
def rowBad : Row := mkRow ["video_id", "Hedonism"] ["bad"]

/-- Another concrete well-formed row of the same layout. -/
def rowGood2 : Row := mkRow ["video_id", "Hedonism"] ["v3", "absent"]

theorem convert_value_none (gtc : String → Option Int) (logged : List (String × String))
    (c : String) (n : Nat) : convert_value gtc logged none c n = (0, logged, []) := rfl

theorem convert_value_fst (gtc : String → Option Int) (logged : List (String × String))
    (v c : String) (n : Nat) :
    (convert_value gtc logged (some v) c n).1 = (gtc v).getD 0 := by
  unfold convert_value
  cases h : gtc v with
  | some k => simp [h]
  | none =>
    by_cases hv : v = ""
    · subst hv; simp [h]
    · by_cases hm : (c, v) ∈ logged <;> simp [hv, hm, h]

theorem extractAnnots_result_indep (gtc : String → Option Int) (hv : Bool)
    (cm : List (String × String)) (row : Row) :
    ∀ (cats : List String) (n n' : Nat) (lg lg' : List (String × String)),
    (extractAnnots gtc hv cm row n lg cats).2.2 =
      (extractAnnots gtc hv cm row n' lg' cats).2.2 := by
  intro cats
  induction cats with
  | nil => intro n n' lg lg'; rfl
  | cons c cats ih =>
    intro n n' lg lg'
    simp only [extractAnnots]
    cases h : getValueStr hv cm row c with
    | error e => rfl
    | ok vs =>
      have h1 : (convert_value gtc lg (some vs) c n).1 =
          (convert_value gtc lg' (some vs) c n').1 := by
        rw [convert_value_fst, convert_value_fst]
      simp only [h1, ih _ n' _ ((convert_value gtc lg' (some vs) c n').2.1)]

theorem extractAnnots_keys (gtc : String → Option Int) (hv : Bool)
    (cm : List (String × String)) (row : Row) :
    ∀ (cats : List String) (n : Nat) (lg : List (String × String)) (l : List (String × Int)),
    (extractAnnots gtc hv cm row n lg cats).2.2 = .ok l → l.map Prod.fst = cats := by
  intro cats
  induction cats with
  | nil =>
    intro n lg l h
    simp only [extractAnnots] at h
    cases h
    rfl
  | cons c cats ih =>
    intro n lg l h
    simp only [extractAnnots] at h
    cases hg : getValueStr hv cm row c with
    | error e => simp only [hg] at h; cases h
    | ok vs =>
      simp only [hg] at h
      cases hr : (extractAnnots gtc hv cm row n
          (convert_value gtc lg (some vs) c n).2.1 cats).2.2 with
      | error e => rw [hr] at h; cases h
      | ok l0 =>
        rw [hr] at h
        cases h
        simp [ih _ _ _ hr]

theorem parse_row_result_indep (nvid : String → String) (gtc : String → Option Int)
    (row : Row) (f f' hv : Bool) (cm : List (String × String)) (n n' : Nat)
    (lg lg' : List (String × String)) :
    (parse_row nvid gtc lg row f hv cm n).result =
      (parse_row nvid gtc lg' row f' hv cm n').result := by
  simp only [parse_row]
  cases he : extractVideoId nvid row with
  | error e => rfl
  | ok vid? =>
    cases vid? with
    | none => rfl
    | some vid =>
      by_cases h0 : vid = ""
      · simp [h0]
      · simp only [h0, if_false]
        have hind := extractAnnots_result_indep gtc hv cm row ANNOTATION_CATEGORIES n n' lg lg'
        cases ha : (extractAnnots gtc hv cm row n lg ANNOTATION_CATEGORIES).2.2 with
        | error e =>
          rw [ha] at hind
          simp [ha, ← hind]
        | ok annots =>
          rw [ha] at hind
          simp [ha, ← hind]

theorem parse_row_keys (nvid : String → String) (gtc : String → Option Int)
    (lg : List (String × String)) (row : Row) (f hv : Bool)
    (cm : List (String × String)) (n : Nat) (r : PredictionResult) :
    (parse_row nvid gtc lg row f hv cm n).result = .ok (some r) →
    r.predictions.map Prod.fst = ANNOTATION_CATEGORIES := by
  simp only [parse_row]
  cases he : extractVideoId nvid row with
  | error e => intro h; cases h
  | ok vid? =>
    cases vid? with
    | none => intro h; cases h
    | some vid =>
      by_cases h0 : vid = ""
      · simp [h0]
      · simp only [h0, if_false]
        cases ha : (extractAnnots gtc hv cm row n lg ANNOTATION_CATEGORIES).2.2 with
        | error e => intro h; cases h
        | ok annots =>
          intro h
          cases h
          exact extractAnnots_keys gtc hv cm row _ _ _ _ ha

theorem loadRows_state_indep (nvid : String → String) (gtc : String → Option Int)
    (f f' hv : Bool) (cm : List (String × String)) :
    ∀ (rows : List Row) (n : Nat) (lg lg' : List (String × String)),
    (loadRows nvid gtc f hv cm rows n lg).preds =
      (loadRows nvid gtc f' hv cm rows n lg').preds ∧
    (loadRows nvid gtc f hv cm rows n lg).errs =
      (loadRows nvid gtc f' hv cm rows n lg').errs := by
  intro rows
  induction rows with
  | nil => intro n lg lg'; exact ⟨rfl, rfl⟩
  | cons r rest ih =>
    intro n lg lg'
    simp only [loadRows]
    have hres := parse_row_result_indep nvid gtc r f f' hv cm n n lg lg'
    obtain ⟨ihp, ihe⟩ := ih (n + 1) (parse_row nvid gtc lg r f hv cm n).logged
      (parse_row nvid gtc lg' r f' hv cm n).logged
    cases hr : (parse_row nvid gtc lg r f hv cm n).result with
    | error e =>
      rw [hr] at hres
      rw [← hres]
      simp [ihp, ihe]
    | ok p? =>
      rw [hr] at hres
      rw [← hres]
      cases p? with
      | none => simp [ihp, ihe]
      | some p => simp [ihp, ihe]

theorem loadRows_append (nvid : String → String) (gtc : String → Option Int)
    (f hv : Bool) (cm : List (String × String)) :
    ∀ (l1 l2 : List Row) (n : Nat) (lg : List (String × String)),
    loadRows nvid gtc f hv cm (l1 ++ l2) n lg =
      ⟨(loadRows nvid gtc f hv cm l1 n lg).preds ++
         (loadRows nvid gtc f hv cm l2 (n + l1.length)
           (loadRows nvid gtc f hv cm l1 n lg).logged).preds,
       (loadRows nvid gtc f hv cm l1 n lg).errs ++
         (loadRows nvid gtc f hv cm l2 (n + l1.length)
           (loadRows nvid gtc f hv cm l1 n lg).logged).errs,
       (loadRows nvid gtc f hv cm l2 (n + l1.length)
         (loadRows nvid gtc f hv cm l1 n lg).logged).logged,
       (loadRows nvid gtc f hv cm l1 n lg).warnings ++
         (loadRows nvid gtc f hv cm l2 (n + l1.length)
           (loadRows nvid gtc f hv cm l1 n lg).logged).warnings⟩ := by
  intro l1
  induction l1 with
  | nil => intro l2 n lg; simp [loadRows]
  | cons r rest ih =>
    intro l2 n lg
    have harith : n + 1 + rest.length = n + (rest.length + 1) := by omega
    simp only [List.cons_append, loadRows]
    cases hr : (parse_row nvid gtc lg r f hv cm n).result with
    | error e => simp [ih, harith, List.append_assoc]
    | ok p? => cases p? with
      | none => simp [ih, harith, List.append_assoc]
      | some p => simp [ih, harith, List.append_assoc]

theorem loadRows_mem (nvid : String → String) (gtc : String → Option Int)
    (f hv : Bool) (cm : List (String × String)) :
    ∀ (rows : List Row) (n : Nat) (lg : List (String × String)) (r : PredictionResult),
    r ∈ (loadRows nvid gtc f hv cm rows n lg).preds →
    ∃ (row : Row) (n' : Nat) (lg' : List (String × String)),
      row ∈ rows ∧ (parse_row nvid gtc lg' row f hv cm n').result = .ok (some r) := by
  intro rows
  induction rows with
  | nil => intro n lg r h; simp [loadRows] at h
  | cons row rest ih =>
    intro n lg r h
    simp only [loadRows] at h
    cases hr : (parse_row nvid gtc lg row f hv cm n).result with
    | error e =>
      simp only [hr] at h
      obtain ⟨row', n', lg', hm, hp⟩ := ih (n + 1) _ r h
      exact ⟨row', n', lg', List.mem_cons_of_mem _ hm, hp⟩
    | ok p? =>
      cases p? with
      | none =>
        simp only [hr] at h
        obtain ⟨row', n', lg', hm, hp⟩ := ih (n + 1) _ r h
        exact ⟨row', n', lg', List.mem_cons_of_mem _ hm, hp⟩
      | some p =>
        simp only [hr] at h
        rcases List.mem_cons.mp h with hrp | hmem
        · exact ⟨row, n, lg, List.mem_cons_self _ _, by rw [hr, hrp]⟩
        · obtain ⟨row', n', lg', hm, hp⟩ := ih (n + 1) _ r hmem
          exact ⟨row', n', lg', List.mem_cons_of_mem _ hm, hp⟩

theorem loadRows_forall2 (nvid : String → String) (gtc : String → Option Int)
    (f hv : Bool) (cm : List (String × String)) :
    ∀ (rows : List Row) (n : Nat) (lg : List (String × String)),
    (∀ row ∈ rows, ∃ p, (parse_row nvid gtc [] row f hv cm 2).result = .ok (some p)) →
    List.Forall₂ (fun row p => (parse_row nvid gtc [] row f hv cm 2).result = .ok (some p))
      rows (loadRows nvid gtc f hv cm rows n lg).preds := by
  intro rows
  induction rows with
  | nil => intro n lg _; exact List.Forall₂.nil
  | cons row rest ih =>
    intro n lg h
    obtain ⟨p, hp⟩ := h row (List.mem_cons_self _ _)
    have hres : (parse_row nvid gtc lg row f hv cm n).result = .ok (some p) := by
      rw [parse_row_result_indep nvid gtc row f f hv cm n 2 lg []]
      exact hp
    simp only [loadRows, hres]
    exact List.Forall₂.cons hp
      (ih (n + 1) _ (fun row' hm => h row' (List.mem_cons_of_mem _ hm)))

theorem WChain.refl (lg : List (String × String)) : WChain lg lg [] :=
  ⟨rfl, List.nodup_nil, by simp⟩

theorem WChain.comp {lg0 lg1 lg2 : List (String × String)}
    {w1 w2 : List (String × String)}
    (h1 : WChain lg0 lg1 w1) (h2 : WChain lg1 lg2 w2) :
    WChain lg0 lg2 (w1 ++ w2) := by
  obtain ⟨e1, n1, d1⟩ := h1
  obtain ⟨e2, n2, d2⟩ := h2
  refine ⟨?_, ?_, ?_⟩
  · rw [e2, e1, List.reverse_append, List.append_assoc]
  · rw [List.nodup_append]
    refine ⟨n1, n2, ?_⟩
    intro p hp1 hp2
    exact d2 p hp2 (by rw [e1]; exact List.mem_append_left _ (List.mem_reverse.mpr hp1))
  · intro p hp
    rcases List.mem_append.mp hp with h | h
    · exact d1 p h
    · intro hl0
      exact d2 p h (by rw [e1]; exact List.mem_append_right _ hl0)

theorem convert_value_wchain (gtc : String → Option Int) (lg : List (String × String))
    (vs : Option String) (c : String) (n : Nat) :
    WChain lg (convert_value gtc lg vs c n).2.1
      ((convert_value gtc lg vs c n).2.2.map wpair) := by
  unfold convert_value
  cases vs with
  | none => exact WChain.refl lg
  | some v =>
    cases h : gtc v with
    | some k => simp only [h]; exact WChain.refl lg
    | none =>
      by_cases hv : v = ""
      · subst hv
        simp only [h]
        exact WChain.refl lg
      · by_cases hm : (c, v) ∈ lg
        · simp only [h, if_neg hv, if_pos hm]
          exact WChain.refl lg
        · simp only [h, if_neg hv, if_neg hm]
          exact ⟨rfl, List.nodup_singleton _, by simpa [wpair] using hm⟩

theorem extractAnnots_wchain (gtc : String → Option Int) (hv : Bool)
    (cm : List (String × String)) (row : Row) :
    ∀ (cats : List String) (n : Nat) (lg : List (String × String)),
    WChain lg (extractAnnots gtc hv cm row n lg cats).1
      ((extractAnnots gtc hv cm row n lg cats).2.1.map wpair) := by
  intro cats
  induction cats with
  | nil => intro n lg; exact WChain.refl lg
  | cons c cats ih =>
    intro n lg
    simp only [extractAnnots]
    cases hg : getValueStr hv cm row c with
    | error e => exact WChain.refl lg
    | ok vs =>
      simp only [List.map_append]
      exact WChain.comp (convert_value_wchain gtc lg (some vs) c n)
        (ih n (convert_value gtc lg (some vs) c n).2.1)

theorem parse_row_wchain (nvid : String → String) (gtc : String → Option Int)
    (lg : List (String × String)) (row : Row) (f hv : Bool)
    (cm : List (String × String)) (n : Nat) :
    WChain lg (parse_row nvid gtc lg row f hv cm n).logged
      ((parse_row nvid gtc lg row f hv cm n).warnings.map wpair) := by
  simp only [parse_row]
  cases he : extractVideoId nvid row with
  | error e => exact WChain.refl lg
  | ok vid? =>
    cases vid? with
    | none => exact WChain.refl lg
    | some vid =>
      by_cases h0 : vid = ""
      · simp only [h0, if_pos rfl]
        exact WChain.refl lg
      · simp only [h0, if_false]
        cases ha : (extractAnnots gtc hv cm row n lg ANNOTATION_CATEGORIES).2.2 with
        | error e =>
          have := extractAnnots_wchain gtc hv cm row ANNOTATION_CATEGORIES n lg
          simpa using this
        | ok annots =>
          have := extractAnnots_wchain gtc hv cm row ANNOTATION_CATEGORIES n lg
          simpa using this

theorem loadRows_wchain (nvid : String → String) (gtc : String → Option Int)
    (f hv : Bool) (cm : List (String × String)) :
    ∀ (rows : List Row) (n : Nat) (lg : List (String × String)),
    WChain lg (loadRows nvid gtc f hv cm rows n lg).logged
      ((loadRows nvid gtc f hv cm rows n lg).warnings.map wpair) := by
  intro rows
  induction rows with
  | nil => intro n lg; exact WChain.refl lg
  | cons row rest ih =>
    intro n lg
    simp only [loadRows]
    have h1 := parse_row_wchain nvid gtc lg row f hv cm n
    have h2 := ih (n + 1) (parse_row nvid gtc lg row f hv cm n).logged
    cases hr : (parse_row nvid gtc lg row f hv cm n).result with
    | error e => simpa [List.map_append] using WChain.comp h1 h2
    | ok p? =>
      cases p? with
      | none => simpa [List.map_append] using WChain.comp h1 h2
      | some p => simpa [List.map_append] using WChain.comp h1 h2

theorem trimEquiv_rowHas {r1 r2 : Row} (h : trimEquiv r1 r2) (k : String) :
    rowHas r1 k = rowHas r2 k := by
  have hk := h k
  unfold rowHas
  cases h1 : rowFind? r1 k <;> cases h2 : rowFind? r2 k <;>
    simp [h1, h2] at hk ⊢

theorem trimEquiv_strip {r1 r2 : Row} (h : trimEquiv r1 r2) (k : String) :
    pyStrip (dictGet r1 k (some "")) = pyStrip (dictGet r2 k (some "")) := by
  have hk := h k
  unfold dictGet
  cases h1 : rowFind? r1 k <;> cases h2 : rowFind? r2 k <;>
    simp [h1, h2] at hk ⊢
  case some.some c1 c2 =>
    cases c1 with
    | none => cases c2 with
      | none => rfl
      | some s2 => simp at hk
    | some s1 => cases c2 with
      | none => simp at hk
      | some s2 => simp [pyStrip] at hk ⊢; exact hk

theorem getValueStr_trimEquiv (hv : Bool) (cm : List (String × String))
    {r1 r2 : Row} (h : trimEquiv r1 r2) (category : String) :
    getValueStr hv cm r1 category = getValueStr hv cm r2 category := by
  unfold getValueStr ciFallback
  cases hv with
  | false => exact trimEquiv_strip h category
  | true =>
    cases csvColFor category with
    | none =>
      cases (List.find? (fun p => p.1 == strLower category) cm).map Prod.snd with
      | none => rfl
      | some actual => exact trimEquiv_strip h actual
    | some cc =>
      have h1 := trimEquiv_strip h cc
      have h2 := trimEquiv_rowHas h cc
      cases hps : pyStrip (dictGet r2 cc (some "")) with
      | error e =>
        rw [hps] at h1
        simp only [h1, hps, if_true]
      | ok vs =>
        rw [hps] at h1
        simp only [h1, hps, h2, if_true]
        by_cases hc : vs = "" ∧ ¬ rowHas r2 cc = true
        · simp only [if_pos hc]
          cases (List.find? (fun p => p.1 == strLower category) cm).map Prod.snd with
          | none => rfl
          | some actual => exact trimEquiv_strip h actual
        · simp only [if_neg hc]

theorem rowFind?_isSome_of_wellFormed {row : Row} (hw : rowWellFormed row)
    (k : String) : ∀ c, rowFind? row k = some c → c.isSome := by
  intro c h
  unfold rowFind? at h
  cases hf : List.find? (fun p => p.1 == k) row with
  | none => rw [hf] at h; cases h
  | some p => rw [hf] at h; cases h; exact hw p (List.mem_of_find?_eq_some hf)

theorem pyStrip_dictGet_ok {row : Row} (hw : rowWellFormed row) (k : String) :
    ∃ s, pyStrip (dictGet row k (some "")) = .ok s := by
  unfold dictGet
  cases hf : rowFind? row k with
  | none => exact ⟨pyStripStr "", rfl⟩
  | some c =>
    have := rowFind?_isSome_of_wellFormed hw k c hf
    cases c with
    | none => simp at this
    | some s => exact ⟨pyStripStr s, rfl⟩

theorem getValueStr_ok_of_wellFormed (hv : Bool) (cm : List (String × String))
    {row : Row} (hw : rowWellFormed row) (category : String) :
    ∃ vs, getValueStr hv cm row category = .ok vs := by
  unfold getValueStr ciFallback
  cases hv with
  | false => exact pyStrip_dictGet_ok hw category
  | true =>
    cases csvColFor category with
    | none =>
      cases (List.find? (fun p => p.1 == strLower category) cm).map Prod.snd with
      | none => exact ⟨"", rfl⟩
      | some actual => exact pyStrip_dictGet_ok hw actual
    | some cc =>
      obtain ⟨s, hs⟩ := pyStrip_dictGet_ok hw cc
      simp only [hs, if_true]
      by_cases hc : s = "" ∧ ¬ rowHas row cc = true
      · simp only [if_pos hc]
        cases (List.find? (fun p => p.1 == strLower category) cm).map Prod.snd with
        | none => exact ⟨"", rfl⟩
        | some actual => exact pyStrip_dictGet_ok hw actual
      · exact ⟨s, by simp only [if_neg hc]⟩

theorem extractAnnots_ok_of_wellFormed (gtc : String → Option Int) (hv : Bool)
    (cm : List (String × String)) {row : Row} (hw : rowWellFormed row) :
    ∀ (cats : List String) (n : Nat) (lg : List (String × String)),
    ∃ l, (extractAnnots gtc hv cm row n lg cats).2.2 = .ok l := by
  intro cats
  induction cats with
  | nil => intro n lg; exact ⟨[], rfl⟩
  | cons c cats ih =>
    intro n lg
    obtain ⟨vs, hvs⟩ := getValueStr_ok_of_wellFormed hv cm hw c
    obtain ⟨l, hl⟩ := ih n (convert_value gtc lg (some vs) c n).2.1
    simp only [extractAnnots, hvs, hl]
    exact ⟨(c, (convert_value gtc lg (some vs) c n).1) :: l, rfl⟩

theorem parse_row_ok_of_wellFormed (nvid : String → String) (gtc : String → Option Int)
    (lg : List (String × String)) {row : Row} (f hv : Bool)
    (cm : List (String × String)) (n : Nat) (hw : rowWellFormed row)
    {vid : String} (hid : extractVideoId nvid row = .ok (some vid)) (h0 : vid ≠ "") :
    ∃ p, (parse_row nvid gtc lg row f hv cm n).result = .ok (some p) := by
  obtain ⟨l, hl⟩ := extractAnnots_ok_of_wellFormed gtc hv cm hw ANNOTATION_CATEGORIES n lg
  simp only [parse_row, hid, h0, if_false, hl]
  exact ⟨⟨vid, l, true, none, 0⟩, rfl⟩

/-- C8: for every path that does not exist on the (modelled) filesystem,
`load` raises the `FileNotFoundError` of source lines 71-73 with no
dependence on any file content, and for every path that does exist
`load` returns a `PredictionSet` normally, so the missing-file error is
the only propagated failure of a load. -/
theorem C8_missing_file_only_fatal :
    (∀ (nvid : String → String) (gtc : String → Option Int)
       (fs : String → Option CsvFile) (name path : String),
       fs path = none →
       load nvid gtc fs name path = .error ("Predictions file not found: " ++ path)) ∧
    (∀ (nvid : String → String) (gtc : String → Option Int)
       (fs : String → Option CsvFile) (name path : String) (file : CsvFile),
       fs path = some file →
       load nvid gtc fs name path = .ok (loadFromFile nvid gtc name file)) := by
  constructor
  · intro nvid gtc fs name path h
    unfold load
    rw [h]
  · intro nvid gtc fs name path file h
    unfold load
    rw [h]

/-- Witness for C8 at a concrete filesystem: the path `"missing.csv"` is
absent and raises, the path `"preds.csv"` is present and loads. -/
theorem C8_missing_file_only_fatal_witness :
    load idResolver gt_convert_value fsStd "m" "missing.csv" =
      .error ("Predictions file not found: " ++ "missing.csv") ∧
    load idResolver gt_convert_value fsStd "m" "preds.csv" =
      .ok (loadFromFile idResolver gt_convert_value "m" fileStd) :=
  ⟨C8_missing_file_only_fatal.1 idResolver gt_convert_value fsStd "m" "missing.csv" rfl,
   C8_missing_file_only_fatal.2 idResolver gt_convert_value fsStd "m" "preds.csv" fileStd rfl⟩

/-- C4: every successful `load` returns a `PredictionSet` with
`total_count = success_count = ` the number of records produced,
`failure_count = 0` and an empty `failed_video_ids` list (source lines
108-115), regardless of how many rows raised and were dropped. -/
theorem C4_counts_ignore_dropped_rows :
    ∀ (nvid : String → String) (gtc : String → Option Int)
      (fs : String → Option CsvFile) (name path : String)
      (ps : PredictionSet) (log : LoadLog),
    load nvid gtc fs name path = .ok (ps, log) →
    ps.total_count = ps.predictions.length ∧
    ps.success_count = ps.predictions.length ∧
    ps.failure_count = 0 ∧
    ps.failed_video_ids = [] := by
  intro nvid gtc fs name path ps log h
  unfold load at h
  cases hfs : fs path with
  | none => rw [hfs] at h; cases h
  | some file =>
    rw [hfs] at h
    cases h
    exact ⟨rfl, rfl, rfl, rfl⟩

/-- Witness for C4 at a concrete file whose middle row raises (one parse
diagnostic is collected), applying the theorem to the loaded result. -/
theorem C4_counts_ignore_dropped_rows_witness :
    ((loadFromFile idResolver gt_convert_value "m" fileShortRow).2.parseErrors.length = 1) ∧
    ((loadFromFile idResolver gt_convert_value "m" fileShortRow).1.total_count =
      (loadFromFile idResolver gt_convert_value "m" fileShortRow).1.predictions.length ∧
     (loadFromFile idResolver gt_convert_value "m" fileShortRow).1.success_count =
      (loadFromFile idResolver gt_convert_value "m" fileShortRow).1.predictions.length ∧
     (loadFromFile idResolver gt_convert_value "m" fileShortRow).1.failure_count = 0 ∧
     (loadFromFile idResolver gt_convert_value "m" fileShortRow).1.failed_video_ids = []) :=
  ⟨by decide,
   C4_counts_ignore_dropped_rows idResolver gt_convert_value fsShort "m" "short.csv"
     (loadFromFile idResolver gt_convert_value "m" fileShortRow).1
     (loadFromFile idResolver gt_convert_value "m" fileShortRow).2 rfl⟩

theorem loadRows_flag (nvid : String → String) (gtc : String → Option Int)
    (b b' hv : Bool) (cm : List (String × String)) :
    ∀ (rows : List Row) (n : Nat) (lg : List (String × String)),
    loadRows nvid gtc b hv cm rows n lg = loadRows nvid gtc b' hv cm rows n lg := by
  intro rows
  induction rows with
  | nil => intro n lg; rfl
  | cons row rest ih =>
    intro n lg
    simp only [loadRows]
    rw [ih]
    rfl

/-- C10: `_parse_row` never reads its `is_tiktok_format` parameter
(source lines 152-223), so its entire outcome is identical for both
flag values, and consequently the `PredictionSet` assembled by the load
body is identical for both flag values — the flag reaches only the
logging channel. -/
theorem C10_tiktok_flag_only_logging :
    (∀ (nvid : String → String) (gtc : String → Option Int)
       (lg : List (String × String)) (row : Row) (b b' hv : Bool)
       (cm : List (String × String)) (n : Nat),
       parse_row nvid gtc lg row b hv cm n = parse_row nvid gtc lg row b' hv cm n) ∧
    (∀ (nvid : String → String) (gtc : String → Option Int)
       (name : String) (file : CsvFile) (b b' : Bool),
       (loadFromFileFlag nvid gtc name file b).1 = (loadFromFileFlag nvid gtc name file b').1) ∧
    (∀ (nvid : String → String) (gtc : String → Option Int)
       (name : String) (file : CsvFile),
       loadFromFile nvid gtc name file =
         loadFromFileFlag nvid gtc name file (detect_tiktok file.header)) := by
  refine ⟨fun _ _ _ _ _ _ _ _ _ => rfl, ?_, fun _ _ _ _ => rfl⟩
  intro nvid gtc name file b b'
  simp only [loadFromFileFlag]
  rw [loadRows_flag nvid gtc b b' (has_value_cols file.header)
    (build_column_mapping file.header).1]

/-- C2: row-identifier extraction tries `filename` (through
`_extract_video_id`), then `1_Link1` (through the external resolver),
then `video_id` (stripped), in that fixed order; a row with none of the
three fields is skipped, and a row whose resolved identifier is empty
is skipped, in both cases with unchanged dedup state, no warnings and
no diagnostic (source lines 173-184). -/
theorem C2_identifier_priority_and_skips :
    (∀ (nvid : String → String) (row : Row) (s : String),
       rowFind? row "filename" = some (some s) →
       extractVideoId nvid row = .ok (some (extract_video_id nvid s))) ∧
    (∀ (nvid : String → String) (row : Row) (s : String),
       rowFind? row "filename" = none →
       rowFind? row "1_Link1" = some (some s) →
       extractVideoId nvid row = .ok (some (nvid s))) ∧
    (∀ (nvid : String → String) (row : Row) (s : String),
       rowFind? row "filename" = none →
       rowFind? row "1_Link1" = none →
       rowFind? row "video_id" = some (some s) →
       extractVideoId nvid row = .ok (some (pyStripStr s))) ∧
    (∀ (nvid : String → String) (gtc : String → Option Int)
       (lg : List (String × String)) (row : Row) (f hv : Bool)
       (cm : List (String × String)) (n : Nat),
       rowFind? row "filename" = none →
       rowFind? row "1_Link1" = none →
       rowFind? row "video_id" = none →
       parse_row nvid gtc lg row f hv cm n = ⟨lg, [], .ok none⟩) ∧
    (∀ (nvid : String → String) (gtc : String → Option Int)
       (lg : List (String × String)) (row : Row) (f hv : Bool)
       (cm : List (String × String)) (n : Nat),
       extractVideoId nvid row = .ok (some "") →
       parse_row nvid gtc lg row f hv cm n = ⟨lg, [], .ok none⟩) := by
  refine ⟨?_, ?_, ?_, ?_, ?_⟩
  · intro nvid row s h
    unfold extractVideoId
    simp only [h]
    rfl
  · intro nvid row s h1 h2
    unfold extractVideoId
    simp only [h1, h2]
    rfl
  · intro nvid row s h1 h2 h3
    unfold extractVideoId
    simp only [h1, h2, h3]
    rfl
  · intro nvid gtc lg row f hv cm n h1 h2 h3
    unfold parse_row extractVideoId
    simp only [h1, h2, h3]
  · intro nvid gtc lg row f hv cm n h
    unfold parse_row
    simp only [h, if_true]

/-- Witness for C2 at concrete rows: a row with only a `video_id` field
resolves by stripping, a row with none of the three fields is skipped
with no diagnostic, and a row whose `video_id` strips to empty is
skipped with no diagnostic. -/
theorem C2_identifier_priority_and_skips_witness :
    extractVideoId idResolver [("video_id", some " v9 ")] = .ok (some (pyStripStr " v9 ")) ∧
    parse_row idResolver gt_convert_value [] [("Hedonism", some "present")]
      false false [] 2 = ⟨[], [], .ok none⟩ ∧
    parse_row idResolver gt_convert_value [] [("video_id", some "   ")]
      false false [] 2 = ⟨[], [], .ok none⟩ :=
  ⟨C2_identifier_priority_and_skips.2.2.1 idResolver [("video_id", some " v9 ")] " v9 "
     rfl rfl rfl,
   C2_identifier_priority_and_skips.2.2.2.1 idResolver gt_convert_value []
     [("Hedonism", some "present")] false false [] 2 rfl rfl rfl,
   C2_identifier_priority_and_skips.2.2.2.2 idResolver gt_convert_value []
     [("video_id", some "   ")] false false [] 2 rfl⟩

/-- C1: every `PredictionResult` inside a returned `PredictionSet` has a
predictions mapping whose key list is exactly the canonical category
list (which has no duplicates), whatever columns the file had; an
unrecognized value is stored as 0, and an empty raw value converts to 0,
so no category is ever absent (source lines 186-223, 238-270). -/
theorem C1_predictions_cover_all_categories :
    (∀ (nvid : String → String) (gtc : String → Option Int)
       (fs : String → Option CsvFile) (name path : String)
       (ps : PredictionSet) (log : LoadLog) (r : PredictionResult),
       load nvid gtc fs name path = .ok (ps, log) → r ∈ ps.predictions →
       r.predictions.map Prod.fst = ANNOTATION_CATEGORIES) ∧
    ANNOTATION_CATEGORIES.Nodup ∧
    (∀ (gtc : String → Option Int) (lg : List (String × String))
       (v c : String) (n : Nat),
       gtc v = none → (convert_value gtc lg (some v) c n).1 = 0) ∧
    (∀ (lg : List (String × String)) (c : String) (n : Nat),
       convert_value gt_convert_value lg (some "") c n = (0, lg, [])) := by
  refine ⟨?_, by decide, ?_, fun lg c n => rfl⟩
  · intro nvid gtc fs name path ps log r hload hr
    unfold load at hload
    cases hfs : fs path with
    | none => rw [hfs] at hload; cases hload
    | some file =>
      rw [hfs] at hload
      cases hload
      obtain ⟨row, n', lg', _, hp⟩ :=
        loadRows_mem nvid gtc (detect_tiktok file.header) (has_value_cols file.header)
          (build_column_mapping file.header).1 (file.rows.map (mkRow file.header)) 2 [] r hr
      exact parse_row_keys nvid gtc lg' row _ _ _ n' r hp
  · intro gtc lg v c n h
    rw [convert_value_fst, h]
    rfl

/-- Witness for C1: the first record loaded from the concrete standard
file has exactly the canonical categories as its prediction keys. -/
theorem C1_predictions_cover_all_categories_witness :
    ((loadFromFile idResolver gt_convert_value "m" fileStd).1.predictions.get
        ⟨0, by decide⟩).predictions.map Prod.fst = ANNOTATION_CATEGORIES :=
  C1_predictions_cover_all_categories.1 idResolver gt_convert_value fsStd "m" "preds.csv"
    (loadFromFile idResolver gt_convert_value "m" fileStd).1
    (loadFromFile idResolver gt_convert_value "m" fileStd).2
    ((loadFromFile idResolver gt_convert_value "m" fileStd).1.predictions.get ⟨0, by decide⟩)
    rfl (List.get_mem _ _ _)

/-- C3: for a file whose data rows are fully populated and all carry a
recognized identifier that resolves to a non-empty string, and each of
which has at least one resolvable category column, `load` produces
exactly one `PredictionResult` per data row, and the records stand in
the `PredictionSet` in file order (expressed as a `Forall₂`
correspondence between the row list and the record list, which forces
equal lengths and positionwise provenance; source lines 93-99). -/
theorem C3_one_record_per_row_in_order :
    ∀ (nvid : String → String) (gtc : String → Option Int)
      (fs : String → Option CsvFile) (name path : String) (file : CsvFile)
      (ps : PredictionSet) (log : LoadLog),
    fs path = some file →
    load nvid gtc fs name path = .ok (ps, log) →
    (∀ cells ∈ file.rows,
       rowWellFormed (mkRow file.header cells) ∧
       (∃ vid, extractVideoId nvid (mkRow file.header cells) = .ok (some vid) ∧ vid ≠ "") ∧
       (∃ c ∈ ANNOTATION_CATEGORIES,
          resolvableColumn (has_value_cols file.header) (build_column_mapping file.header).1
            (mkRow file.header cells) c)) →
    List.Forall₂
      (fun cells p =>
        (parse_row nvid gtc [] (mkRow file.header cells) (detect_tiktok file.header)
            (has_value_cols file.header) (build_column_mapping file.header).1 2).result
          = .ok (some p))
      file.rows ps.predictions := by
  intro nvid gtc fs name path file ps log hfs hload hrows
  unfold load at hload
  rw [hfs] at hload
  cases hload
  have hall : ∀ row ∈ file.rows.map (mkRow file.header),
      ∃ p, (parse_row nvid gtc [] row (detect_tiktok file.header)
        (has_value_cols file.header) (build_column_mapping file.header).1 2).result
          = .ok (some p) := by
    intro row hrow
    obtain ⟨cells, hc, hcells⟩ := List.mem_map.mp hrow
    obtain ⟨hw, ⟨vid, hid, h0⟩, _⟩ := hrows cells hc
    subst hcells
    exact parse_row_ok_of_wellFormed nvid gtc [] _ _ _ 2 hw hid h0
  have h2 := loadRows_forall2 nvid gtc (detect_tiktok file.header)
    (has_value_cols file.header) (build_column_mapping file.header).1
    (file.rows.map (mkRow file.header)) 2 [] hall
  exact List.forall₂_map_left_iff.mp h2

/-- Witness for C3: the three valid rows of the concrete standard file
yield exactly three records, in file order. -/
theorem C3_one_record_per_row_in_order_witness :
    List.Forall₂
      (fun cells p =>
        (parse_row idResolver gt_convert_value [] (mkRow fileStd.header cells)
            (detect_tiktok fileStd.header) (has_value_cols fileStd.header)
            (build_column_mapping fileStd.header).1 2).result = .ok (some p))
      fileStd.rows (loadFromFile idResolver gt_convert_value "m" fileStd).1.predictions :=
  C3_one_record_per_row_in_order idResolver gt_convert_value fsStd "m" "preds.csv" fileStd
    (loadFromFile idResolver gt_convert_value "m" fileStd).1
    (loadFromFile idResolver gt_convert_value "m" fileStd).2
    rfl rfl
    (by
      intro cells hc
      fin_cases hc
      · exact ⟨by unfold rowWellFormed; decide, ⟨"v1", rfl, by decide⟩,
          ⟨"Hedonism", by decide, by unfold resolvableColumn; decide⟩⟩
      · exact ⟨by unfold rowWellFormed; decide, ⟨"v2", rfl, by decide⟩,
          ⟨"Hedonism", by decide, by unfold resolvableColumn; decide⟩⟩
      · exact ⟨by unfold rowWellFormed; decide, ⟨"v3", rfl, by decide⟩,
          ⟨"Hedonism", by decide, by unfold resolvableColumn; decide⟩⟩)

/-- C6: within one load, the unexpected-value warnings carry pairwise
distinct `(category, raw value)` keys — a pair is warned about at most
once however many rows repeat it (source lines 258-267); whenever the
normalizer returns `none` the stored value is 0, and a pair already in
the dedup set produces no further warning; empty raw text converts to 0
with no warning and unchanged dedup state (source lines 238-270). -/
theorem C6_unexpected_value_logged_once_per_pair :
    (∀ (nvid : String → String) (gtc : String → Option Int)
       (fs : String → Option CsvFile) (name path : String)
       (ps : PredictionSet) (log : LoadLog),
       load nvid gtc fs name path = .ok (ps, log) →
       (log.valueWarnings.map wpair).Nodup) ∧
    (∀ (gtc : String → Option Int) (lg : List (String × String))
       (v c : String) (n : Nat), gtc v = none →
       (convert_value gtc lg (some v) c n).1 = 0 ∧
       ((c, v) ∈ lg → (convert_value gtc lg (some v) c n).2.2 = [])) ∧
    (∀ (lg : List (String × String)) (c : String) (n : Nat),
       convert_value gt_convert_value lg (some "") c n = (0, lg, [])) := by
  refine ⟨?_, ?_, fun lg c n => rfl⟩
  · intro nvid gtc fs name path ps log hload
    unfold load at hload
    cases hfs : fs path with
    | none => rw [hfs] at hload; cases hload
    | some file =>
      rw [hfs] at hload
      cases hload
      exact (loadRows_wchain nvid gtc (detect_tiktok file.header)
        (has_value_cols file.header) (build_column_mapping file.header).1
        (file.rows.map (mkRow file.header)) 2 []).2.1
  · intro gtc lg v c n h
    constructor
    · rw [convert_value_fst, h]
      rfl
    · intro hm
      unfold convert_value
      simp only [h]
      by_cases hv : v = ""
      · subst hv; rfl
      · simp only [if_neg hv, if_pos hm]

/-- Witness for C6: the concrete file repeating the unrecognized value
`"maybe"` for `Hedonism` in two rows produces exactly one warning, whose
key list is duplicate-free by the theorem; the empty string converts to
0 without a warning. -/
theorem C6_unexpected_value_logged_once_per_pair_witness :
    (loadFromFile idResolver gt_convert_value "m" fileDup).2.valueWarnings =
      [⟨"Hedonism", "maybe", 2⟩] ∧
    (((loadFromFile idResolver gt_convert_value "m" fileDup).2.valueWarnings.map wpair).Nodup) ∧
    convert_value gt_convert_value [] (some "") "Face" 2 = (0, [], []) :=
  ⟨by decide,
   C6_unexpected_value_logged_once_per_pair.1 idResolver gt_convert_value
     (fun p => if p = "dup.csv" then some fileDup else none) "m" "dup.csv"
     (loadFromFile idResolver gt_convert_value "m" fileDup).1
     (loadFromFile idResolver gt_convert_value "m" fileDup).2 rfl,
   C6_unexpected_value_logged_once_per_pair.2.2 [] "Face" 2⟩

theorem insertAssoc_mem {β : Type} :
    ∀ (m : List (String × β)) (k' : String) (v' : β) (k : String) (v : β),
    (k, v) ∈ insertAssoc m k' v' → (k, v) ∈ m ∨ (k = k' ∧ v = v') := by
  intro m
  induction m with
  | nil =>
    intro k' v' k v h
    simp only [insertAssoc] at h
    rcases List.mem_singleton.mp h with h
    exact Or.inr ⟨congrArg Prod.fst h, congrArg Prod.snd h⟩
  | cons p rest ih =>
    intro k' v' k v h
    simp only [insertAssoc] at h
    by_cases hk : p.1 == k'
    · rw [if_pos hk] at h
      rcases List.mem_cons.mp h with h | h
      · exact Or.inr ⟨(congrArg Prod.fst h).trans (eq_of_beq hk), congrArg Prod.snd h⟩
      · exact Or.inl (List.mem_cons_of_mem _ h)
    · rw [if_neg hk] at h
      rcases List.mem_cons.mp h with h | h
      · exact Or.inl (h ▸ List.mem_cons_self _ _)
      · rcases ih k' v' k v h with h | h
        · exact Or.inl (List.mem_cons_of_mem _ h)
        · exact Or.inr h

theorem build_cm_mem_aux :
    ∀ (cols : List String) (acc : List (String × String)) (k v : String),
    (k, v) ∈ cols.foldl
      (fun m col =>
        if strStarts col "1_Value1_" && strEnds col "_values" then
          insertAssoc m (strLower (strDropRight (strDrop col 9) 7)) col
        else m) acc →
    (k, v) ∈ acc ∨
      (v ∈ cols ∧ (strStarts v "1_Value1_" && strEnds v "_values") = true ∧
        k = strLower (strDropRight (strDrop v 9) 7)) := by
  intro cols
  induction cols with
  | nil => intro acc k v h; exact Or.inl h
  | cons col cols ih =>
    intro acc k v h
    simp only [List.foldl_cons] at h
    rcases ih _ k v h with hacc | ⟨hmem, hcond, hk⟩
    · by_cases hc : (strStarts col "1_Value1_" && strEnds col "_values") = true
      · rw [if_pos hc] at hacc
        rcases insertAssoc_mem acc _ col k v hacc with h' | ⟨hk, hv⟩
        · exact Or.inl h'
        · exact Or.inr ⟨hv ▸ List.mem_cons_self _ _, hv ▸ hc, hv ▸ hk⟩
      · rw [if_neg hc] at hacc
        exact Or.inl hacc
    · exact Or.inr ⟨List.mem_cons_of_mem _ hmem, hcond, hk⟩

/-- C7: the per-file Column Map sends each lowercased category token to
the original header string of the file (never a normalized copy), and
whenever the exact expected TikTok header for a canonical category is
absent but the lowercased token is present, that column is accepted and
the case-mismatch diagnostic naming it is emitted; in particular the
header `1_Value1_Power_dominance_values` resolves `Power_Dominance` and
emits the mismatch diagnostic (source lines 117-150). -/
theorem C7_case_insensitive_resolution_with_diagnostic :
    (∀ (columns : List String) (k v : String),
       (k, v) ∈ (build_column_mapping columns).1 →
       v ∈ columns ∧ (strStarts v "1_Value1_" && strEnds v "_values") = true ∧
         k = strLower (strDropRight (strDrop v 9) 7)) ∧
    (∀ (columns : List String) (category actual : String),
       category ∈ ANNOTATION_CATEGORIES →
       expectedCol category ∉ columns →
       (List.find? (fun p => p.1 == strLower category)
           (build_column_mapping columns).1).map Prod.snd = some actual →
       mismatchMsg category (expectedCol category) actual ∈ (build_column_mapping columns).2) ∧
    ((List.find? (fun p => p.1 == strLower "Power_Dominance")
        (build_column_mapping ["1_Value1_Power_dominance_values"]).1).map Prod.snd =
      some "1_Value1_Power_dominance_values" ∧
     mismatchMsg "Power_Dominance" (expectedCol "Power_Dominance")
        "1_Value1_Power_dominance_values" ∈
       (build_column_mapping ["1_Value1_Power_dominance_values"]).2) := by
  refine ⟨?_, ?_, by decide, by decide⟩
  · intro columns k v h
    unfold build_column_mapping at h
    rcases build_cm_mem_aux columns [] k v h with h | h
    · cases h
    · exact h
  · intro columns category actual hcat hexp hfind
    unfold build_column_mapping
    refine List.mem_filterMap.mpr ⟨category, hcat, ?_⟩
    rw [if_neg hexp]
    unfold build_column_mapping at hfind
    rw [hfind]

/-- Witness for C7: applying the case-insensitive acceptance conjunct to
the concrete lowercase-'d' header yields the mismatch diagnostic. -/
theorem C7_case_insensitive_resolution_witness :
    mismatchMsg "Power_Dominance" (expectedCol "Power_Dominance")
        "1_Value1_Power_dominance_values" ∈
      (build_column_mapping ["1_Value1_Power_dominance_values"]).2 :=
  C7_case_insensitive_resolution_with_diagnostic.2.1
    ["1_Value1_Power_dominance_values"] "Power_Dominance"
    "1_Value1_Power_dominance_values" (by decide) (by decide) (by decide)

/-- C9: the per-category raw text is whitespace-stripped before
conversion (source lines 199, 206, 213), so the looked-up value string
is invariant under surrounding whitespace in the cells: two rows whose
cells agree up to stripping yield identical value strings for every
category in every layout, and stripping a present cell is exactly
`pyStripStr`. -/
theorem C9_value_conversion_trim_invariant :
    (∀ (hv : Bool) (cm : List (String × String)) (category : String) (r1 r2 : Row),
       trimEquiv r1 r2 →
       getValueStr hv cm r1 category = getValueStr hv cm r2 category) ∧
    (∀ (s : String), pyStrip (some s) = .ok (pyStripStr s)) :=
  ⟨fun hv cm category _ _ h => getValueStr_trimEquiv hv cm h category,
   fun _ => rfl⟩

/-- Witness for C9: `" present "` and `"present"` cells give the same
converted value string, namely `"present"`. -/
theorem C9_value_conversion_trim_invariant_witness :
    getValueStr false [] [("Hedonism", some " present ")] "Hedonism" =
      getValueStr false [] [("Hedonism", some "present")] "Hedonism" ∧
    getValueStr false [] [("Hedonism", some "present")] "Hedonism" = .ok "present" :=
  ⟨C9_value_conversion_trim_invariant.1 false [] "Hedonism"
     [("Hedonism", some " present ")] [("Hedonism", some "present")]
     (by
       intro k
       by_cases hk : k = "Hedonism"
       · subst hk; decide
       · have h1 : (("Hedonism" : String) == k) = false :=
           beq_eq_false_iff_ne.mpr (Ne.symm hk)
         simp [rowFind?, List.find?, h1]),
   rfl⟩

/-- Counterexample to C5 as stated: the source formats each row
diagnostic as `"Row N: message"` with a capital R (source line 99), so
the diagnostic recorded for the concrete failing row is not of the
claimed `"row N: message"` form — it does not even start with `"row "`. -/
theorem C5_claimed_format_counterexample :
    (loadFromFile idResolver gt_convert_value "m" fileShortRow).2.parseErrors =
      ["Row 3: AttributeError: 'NoneType' object has no attribute 'strip'"] ∧
    strStarts "Row 3: AttributeError: 'NoneType' object has no attribute 'strip'"
      "row " = false ∧
    strStarts "Row 3: AttributeError: 'NoneType' object has no attribute 'strip'"
      "Row " = true :=
  ⟨by decide, by decide, by decide⟩

/-- C5 (amended): for every row whose parsing raises, the load loop
records a diagnostic formatted `"Row N: message"` (capital R) at that
row's position, drops the row, leaves rows already parsed untouched and
continues with the remaining rows; afterwards at most the first 5
collected diagnostics are surfaced while the logged count covers all of
them, and a row exception never makes the load itself fail (source
lines 93-104). -/
theorem C5_row_errors_diagnosed_capped :
    (∀ (nvid : String → String) (gtc : String → Option Int) (f hv : Bool)
       (cm : List (String × String)) (pre suf : List Row) (bad : Row)
       (n : Nat) (lg : List (String × String)) (e : String),
       (parse_row nvid gtc [] bad f hv cm (n + pre.length)).result = .error e →
       (loadRows nvid gtc f hv cm (pre ++ bad :: suf) n lg).preds =
         (loadRows nvid gtc f hv cm pre n lg).preds ++
           (loadRows nvid gtc f hv cm suf (n + pre.length + 1) lg).preds ∧
       (loadRows nvid gtc f hv cm (pre ++ bad :: suf) n lg).errs =
         (loadRows nvid gtc f hv cm pre n lg).errs ++
           ("Row " ++ toString (n + pre.length) ++ ": " ++ e) ::
             (loadRows nvid gtc f hv cm suf (n + pre.length + 1) lg).errs) ∧
    (∀ (nvid : String → String) (gtc : String → Option Int)
       (name : String) (file : CsvFile),
       (loadFromFile nvid gtc name file).2.surfacedParseErrors =
         (loadFromFile nvid gtc name file).2.parseErrors.take 5 ∧
       (loadFromFile nvid gtc name file).2.surfacedParseErrors.length ≤ 5 ∧
       ((loadFromFile nvid gtc name file).2.parseErrors ≠ [] →
         (loadFromFile nvid gtc name file).2.parseErrorCountMsg =
           some ("Parse errors: " ++
             toString (loadFromFile nvid gtc name file).2.parseErrors.length))) ∧
    (∀ (nvid : String → String) (gtc : String → Option Int)
       (fs : String → Option CsvFile) (name path : String) (file : CsvFile),
       fs path = some file →
       load nvid gtc fs name path = .ok (loadFromFile nvid gtc name file)) := by
  refine ⟨?_, ?_, ?_⟩
  · intro nvid gtc f hv cm pre suf bad n lg e h
    have happ := loadRows_append nvid gtc f hv cm pre (bad :: suf) n lg
    have hbad : (parse_row nvid gtc (loadRows nvid gtc f hv cm pre n lg).logged bad
        f hv cm (n + pre.length)).result = .error e := by
      rw [parse_row_result_indep nvid gtc bad f f hv cm (n + pre.length) (n + pre.length)
        (loadRows nvid gtc f hv cm pre n lg).logged []]
      exact h
    have hstep :
        (loadRows nvid gtc f hv cm (bad :: suf) (n + pre.length)
            (loadRows nvid gtc f hv cm pre n lg).logged).preds =
          (loadRows nvid gtc f hv cm suf (n + pre.length + 1) lg).preds ∧
        (loadRows nvid gtc f hv cm (bad :: suf) (n + pre.length)
            (loadRows nvid gtc f hv cm pre n lg).logged).errs =
          ("Row " ++ toString (n + pre.length) ++ ": " ++ e) ::
            (loadRows nvid gtc f hv cm suf (n + pre.length + 1) lg).errs := by
      simp only [loadRows, hbad]
      constructor
      · exact (loadRows_state_indep nvid gtc f f hv cm suf (n + pre.length + 1) _ lg).1
      · rw [(loadRows_state_indep nvid gtc f f hv cm suf (n + pre.length + 1) _ lg).2]
    constructor
    · rw [happ]
      exact congrArg _ hstep.1
    · rw [happ]
      exact congrArg _ hstep.2
  · intro nvid gtc name file
    refine ⟨rfl, ?_, ?_⟩
    · show ((loadFromFile nvid gtc name file).2.parseErrors.take 5).length ≤ 5
      rw [List.length_take]
      exact min_le_left _ _
    · intro h
      have hfalse : (loadFromFile nvid gtc name file).2.parseErrors.isEmpty = false := by
        cases hEmp : (loadFromFile nvid gtc name file).2.parseErrors.isEmpty with
        | false => rfl
        | true => exact absurd (List.isEmpty_iff.mp hEmp) h
      show (if (loadFromFile nvid gtc name file).2.parseErrors.isEmpty then none
            else some ("Parse errors: " ++
              toString (loadFromFile nvid gtc name file).2.parseErrors.length)) =
        some ("Parse errors: " ++
          toString (loadFromFile nvid gtc name file).2.parseErrors.length)
      rw [if_neg (by simp [hfalse])]
  · intro nvid gtc fs name path file h
    unfold load
    rw [h]

/-- Witness for C5 (amended): in the concrete short-row file the middle
row raises; the records are exactly those of the two good rows and the
single diagnostic carries the `"Row 3: ..."` format; the load still
succeeds. -/
theorem C5_row_errors_diagnosed_capped_witness :
    ((loadRows idResolver gt_convert_value false false [] ([rowGood1] ++ rowBad :: [rowGood2]) 2 []).preds =
      (loadRows idResolver gt_convert_value false false [] [rowGood1] 2 []).preds ++
        (loadRows idResolver gt_convert_value false false [] [rowGood2] (2 + 1 + 1) []).preds ∧
     (loadRows idResolver gt_convert_value false false [] ([rowGood1] ++ rowBad :: [rowGood2]) 2 []).errs =
      (loadRows idResolver gt_convert_value false false [] [rowGood1] 2 []).errs ++
        ("Row " ++ toString (2 + 1) ++ ": " ++
            "AttributeError: 'NoneType' object has no attribute 'strip'") ::
          (loadRows idResolver gt_convert_value false false [] [rowGood2] (2 + 1 + 1) []).errs) ∧
    load idResolver gt_convert_value fsShort "m" "short.csv" =
      .ok (loadFromFile idResolver gt_convert_value "m" fileShortRow) :=
  ⟨C5_row_errors_diagnosed_capped.1 idResolver gt_convert_value false false []
     [rowGood1] [rowGood2] rowBad 2 []
     "AttributeError: 'NoneType' object has no attribute 'strip'" rfl,
   C5_row_errors_diagnosed_capped.2.2 idResolver gt_convert_value fsShort "m"
     "short.csv" fileShortRow rfl⟩
